import Mathlib

/-!
Shallow embedding of the bookstore FastAPI service (src/app.py).

Each handler of app.py wraps its body in try/except Exception/finally.
Since FastAPI's HTTPException subclasses Exception, the except clause also
catches the HTTPException(404) raised inside the try block; and every
handler except create_book executes a bare conn.close() in its finally
clause, which raises UnboundLocalError when get_db_connection itself
failed (conn was never bound).  Both behaviours are modelled faithfully.

Driver-level outcomes (whether a connect / execute / commit succeeds) are
supplied as Boolean parameters to each handler; the table state is passed
explicitly.  Python floats are modelled as exact rationals; dates are kept
as opaque year/month/day triples (the YYYY-MM-DD strftime round-trip done
by create_book and update_book is the identity on such dates).
-/

namespace BookApp

/-- Calendar date stored in the PublishedDate column. -/
structure PyDate where
  year : Nat
  month : Nat
  day : Nat
deriving DecidableEq, Repr

/-- Row of the Books table, which is also the Book response model of
app.py (BookID, Title, Author, Genre, Price, PublishedDate). -/
structure Book where
  BookID : Int
  Title : String
  Author : Option String
  Genre : Option String
  Price : Rat
  PublishedDate : Option PyDate
deriving DecidableEq, Repr

/-- Payload model BookCreate of app.py, after pydantic validation (so its
Price is already rounded to two decimal places by validate_price). -/
structure BookCreate where
  Title : String
  Author : Option String
  Genre : Option String
  Price : Rat
  PublishedDate : Option PyDate
deriving DecidableEq, Repr

/-- Rounding to the nearest integer with ties to even, the behaviour of
the Python builtin round on the exact value. -/
def pyRound (q : Rat) : Int :=
  let f := ⌊q⌋
  let frac := q - (f : Rat)
  if frac < 1/2 then f
  else if 1/2 < frac then f + 1
  else if f % 2 = 0 then f else f + 1

/-- Result of round(float(v), 2) in BookCreate.validate_price. -/
def round2 (q : Rat) : Rat := (pyRound (q * 100) : Rat) / 100

/-- Pydantic validation of a raw BookCreate payload, as declared in
app.py: Title at most 255 characters, Author at most 255, Genre at most
100, Price strictly positive (Field gt=0 together with validate_price,
which also rounds the price to two decimal places). -/
def BookCreate.validate (title : String) (author genre : Option String)
    (price : Rat) (pubDate : Option PyDate) : Except String BookCreate :=
  if 255 < title.length then
    .error "Title: ensure this value has at most 255 characters"
  else if 255 < (author.map String.length).getD 0 then
    .error "Author: ensure this value has at most 255 characters"
  else if 100 < (genre.map String.length).getD 0 then
    .error "Genre: ensure this value has at most 100 characters"
  else if price ≤ 0 then
    .error "Price must be greater than zero"
  else
    .ok ⟨title, author, genre, round2 price, pubDate⟩

/-- Python exception values that can decide a request outcome. -/
inductive PyExc where
  | http (status : Nat) (detail : String)
  | validation (detail : String)
  | driver (msg : String)
  | unboundLocal
deriving DecidableEq, Repr

/-- Result of str(e) on an exception, as used by the except clauses; a
starlette HTTPException prints as "status: detail". -/
def pyStr : PyExc → String
  | .http s d => toString s ++ ": " ++ d
  | .validation d => d
  | .driver m => m
  | .unboundLocal => "cannot access local variable conn"

/-- Driver message used for an arbitrary pyodbc failure. -/
def drvMsg : String := "pyodbc driver error"

/-- Detail of the HTTPException raised by get_db_connection on failure. -/
def connFailDetail : String := "Database connection error: " ++ drvMsg

/-- State of the Books table in the external store. -/
structure DB where
  books : List Book
deriving DecidableEq, Repr

/-- Open pyodbc connection: the committed table contents plus the working
view of the one open transaction (pyodbc runs with autocommit off, so
writes are only visible outside after commit). -/
structure Conn where
  committed : List Book
  working : List Book
deriving DecidableEq, Repr

/-- Result of get_db_connection when the driver connect succeeds. -/
def Conn.acquire (db : DB) : Conn := ⟨db.books, db.books⟩

/-- Cursor execute of the INSERT INTO Books statement of create_book. -/
def Conn.execInsert (c : Conn) (r : Book) : Conn :=
  { c with working := c.working ++ [r] }

/-- Cursor execute of the UPDATE Books statement of update_book: the five
payload columns are overwritten on every row whose BookID matches. -/
def Conn.execUpdate (c : Conn) (id : Int) (b : BookCreate) : Conn :=
  { c with working := c.working.map fun r =>
      if r.BookID == id then
        ⟨r.BookID, b.Title, b.Author, b.Genre, b.Price, b.PublishedDate⟩
      else r }

/-- Cursor execute of the DELETE FROM Books statement of delete_book. -/
def Conn.execDelete (c : Conn) (id : Int) : Conn :=
  { c with working := c.working.filter fun r => !(r.BookID == id) }

/-- conn.commit(): the working view becomes the committed contents. -/
def Conn.commit (c : Conn) : Conn := ⟨c.working, c.working⟩

/-- conn.rollback(): uncommitted work is discarded. -/
def Conn.rollback (c : Conn) : Conn := ⟨c.committed, c.committed⟩

/-- conn.close(): only committed contents survive the connection. -/
def Conn.close (c : Conn) : DB := ⟨c.committed⟩

/-- SQL aggregate MAX(BookID) over the visible rows; NULL (none) on an
empty table, as in the SELECT of create_book. -/
def sqlMaxBookID : List Book → Option Int
  | [] => none
  | b :: bs =>
    match sqlMaxBookID bs with
    | none => some b.BookID
    | some m => some (max b.BookID m)

/-- SQL ISNULL(x, d). -/
def isnull (x : Option Int) (d : Int) : Int := x.getD d

/-- Ordering used by the ORDER BY BookID clause of get_books. -/
def bookLE (a b : Book) : Prop := a.BookID ≤ b.BookID

instance : DecidableRel bookLE := fun a b => Int.decLe a.BookID b.BookID

instance : IsTotal Book bookLE := ⟨fun a b => Int.le_total a.BookID b.BookID⟩

instance : IsTrans Book bookLE := ⟨fun _ _ _ h1 h2 => le_trans h1 h2⟩

/-- ORDER BY BookID: the rows sorted by ascending BookID. -/
def sortByID (l : List Book) : List Book := List.insertionSort bookLE l

/-- Observable driver events of one request, in order. -/
inductive Event where
  | connect
  | execRead
  | execWrite
  | commit
  | rollback
  | close
deriving DecidableEq, Repr

/-- Outcome of one handler invocation: the response (or the escaping
exception), the table contents after the request, and the driver events. -/
structure HResult (α : Type) where
  result : Except PyExc α
  db : DB
  events : List Event

/-- Row built from the payload and an assigned id, exactly the row
inserted and the Book returned by create_book (and, with the path id, the
Book returned by update_book). -/
def mkRow (id : Int) (b : BookCreate) : Book :=
  ⟨id, b.Title, b.Author, b.Genre, b.Price, b.PublishedDate⟩

/-- Handler GET /books/ (get_books in app.py).  cok and qok say whether
connection acquisition and the SELECT succeed at the driver; a negative
skip or a non-positive limit makes the OFFSET / FETCH NEXT clause itself a
driver error.  The bare conn.close() in the finally clause raises
UnboundLocalError when get_db_connection failed, replacing the original
HTTPException(500). -/
def get_books (cok qok : Bool) (db : DB) (skip limit : Int) :
    HResult (List Book) :=
  if cok = false then
    { result := .error .unboundLocal, db := db, events := [] }
  else if qok = false ∨ skip < 0 ∨ limit ≤ 0 then
    { result := .error (.http 500 (pyStr (.driver drvMsg))), db := db,
      events := [.connect, .close] }
  else
    { result := .ok (((sortByID db.books).drop skip.toNat).take limit.toNat),
      db := db, events := [.connect, .execRead, .close] }

/-- Handler GET /books/{id} (get_book).  The except-Exception clause also
catches the HTTPException(404) raised inside the try block and re-raises
it as HTTPException(500, str(e)). -/
def get_book (cok qok : Bool) (db : DB) (id : Int) : HResult Book :=
  if cok = false then
    { result := .error .unboundLocal, db := db, events := [] }
  else if qok = false then
    { result := .error (.http 500 (pyStr (.driver drvMsg))), db := db,
      events := [.connect, .close] }
  else
    match db.books.find? (fun r => r.BookID == id) with
    | none =>
      { result := .error (.http 500 (pyStr (.http 404 "Book not found"))),
        db := db, events := [.connect, .execRead, .close] }
    | some r =>
      { result := .ok r, db := db, events := [.connect, .execRead, .close] }

/-- Handler POST /books/ (create_book).  conn is initialised to None, the
except clause rolls back and the finally clause closes only when a
connection exists, so acquisition failure is reported wrapped in the
"Error creating book" HTTPException rather than masked.  rok, iok, mok:
whether the max-BookID SELECT, the INSERT and the commit succeed. -/
def create_book (cok rok iok mok : Bool) (db : DB) (b : BookCreate) :
    HResult Book :=
  if cok = false then
    { result := .error (.http 500
        ("Error creating book: " ++ pyStr (.http 500 connFailDetail))),
      db := db, events := [] }
  else
    let c0 := Conn.acquire db
    if rok = false then
      { result := .error (.http 500
          ("Error creating book: " ++ pyStr (.driver drvMsg))),
        db := c0.rollback.close, events := [.connect, .rollback, .close] }
    else
      let new_id := isnull (sqlMaxBookID c0.working) 0 + 1
      if iok = false then
        { result := .error (.http 500
            ("Error creating book: " ++ pyStr (.driver drvMsg))),
          db := c0.rollback.close,
          events := [.connect, .execRead, .rollback, .close] }
      else
        let c1 := c0.execInsert (mkRow new_id b)
        if mok = false then
          { result := .error (.http 500
              ("Error creating book: " ++ pyStr (.driver drvMsg))),
            db := c1.rollback.close,
            events := [.connect, .execRead, .execWrite, .rollback, .close] }
        else
          { result := .ok (mkRow new_id b),
            db := c1.commit.close,
            events := [.connect, .execRead, .execWrite, .commit, .close] }

/-- POST /books/ including the framework step: pydantic validates the raw
payload before create_book runs, so a validation failure is answered
without the handler, the connection or the store being reached. -/
def create_book_endpoint (cok rok iok mok : Bool) (db : DB) (title : String)
    (author genre : Option String) (price : Rat) (pubDate : Option PyDate) :
    HResult Book :=
  match BookCreate.validate title author genre price pubDate with
  | .error m => { result := .error (.validation m), db := db, events := [] }
  | .ok b => create_book cok rok iok mok db b

/-- Handler PUT /books/{id} (update_book).  Same try/except/finally shape
as get_book: the HTTPException(404) raised for a missing id is re-raised
as a 500, and a failed connection acquisition ends in UnboundLocalError
from the bare finally clause.  q1ok, q2ok, mok: whether the existence
SELECT, the UPDATE and the commit succeed. -/
def update_book (cok q1ok q2ok mok : Bool) (db : DB) (id : Int)
    (b : BookCreate) : HResult Book :=
  if cok = false then
    { result := .error .unboundLocal, db := db, events := [] }
  else if q1ok = false then
    { result := .error (.http 500 (pyStr (.driver drvMsg))), db := db,
      events := [.connect, .close] }
  else if (db.books.any fun r => r.BookID == id) = false then
    { result := .error (.http 500 (pyStr (.http 404 "Book not found"))),
      db := db, events := [.connect, .execRead, .close] }
  else if q2ok = false then
    { result := .error (.http 500 (pyStr (.driver drvMsg))), db := db,
      events := [.connect, .execRead, .close] }
  else
    let c1 := (Conn.acquire db).execUpdate id b
    if mok = false then
      { result := .error (.http 500 (pyStr (.driver drvMsg))),
        db := c1.close, events := [.connect, .execRead, .execWrite, .close] }
    else
      { result := .ok (mkRow id b), db := c1.commit.close,
        events := [.connect, .execRead, .execWrite, .commit, .close] }

/-- Handler DELETE /books/{id} (delete_book).  Same shape as update_book;
on success it answers with the confirmation message. -/
def delete_book (cok q1ok q2ok mok : Bool) (db : DB) (id : Int) :
    HResult String :=
  if cok = false then
    { result := .error .unboundLocal, db := db, events := [] }
  else if q1ok = false then
    { result := .error (.http 500 (pyStr (.driver drvMsg))), db := db,
      events := [.connect, .close] }
  else if (db.books.any fun r => r.BookID == id) = false then
    { result := .error (.http 500 (pyStr (.http 404 "Book not found"))),
      db := db, events := [.connect, .execRead, .close] }
  else if q2ok = false then
    { result := .error (.http 500 (pyStr (.driver drvMsg))), db := db,
      events := [.connect, .execRead, .close] }
  else
    let c1 := (Conn.acquire db).execDelete id
    if mok = false then
      { result := .error (.http 500 (pyStr (.driver drvMsg))),
        db := c1.close, events := [.connect, .execRead, .execWrite, .close] }
    else
      { result := .ok "Book deleted successfully", db := c1.commit.close,
        events := [.connect, .execRead, .execWrite, .commit, .close] }

/-- Per-thread state of one in-flight create_book call: the candidate id,
once the max-BookID read has happened. -/
structure ThreadState where
  savedId : Option Int
deriving DecidableEq, Repr

/-- One atomic step of a create_book call against the shared table: first
the max-BookID read computing new_id, then the INSERT (with its commit
folded in).  The two statements are separate driver calls in the code and
not under one isolated transaction, so steps of two calls interleave. -/
def stepThread (table : List Book) (ts : ThreadState) (b : BookCreate) :
    List Book × ThreadState :=
  match ts.savedId with
  | none => (table, ⟨some (isnull (sqlMaxBookID table) 0 + 1)⟩)
  | some i => (table ++ [mkRow i b], ts)

/-- Run an interleaving of two create_book calls: a true entry steps the
first call, a false entry the second. -/
def runSchedule : List Bool → List Book → ThreadState → ThreadState →
    BookCreate → BookCreate → List Book
  | [], table, _, _, _, _ => table
  | t :: rest, table, s1, s2, b1, b2 =>
    if t then
      let p := stepThread table s1 b1
      runSchedule rest p.1 p.2 s2 b1 b2
    else
      let p := stepThread table s2 b2
      runSchedule rest p.1 s1 p.2 b1 b2

/-- The racy interleaving: both calls read the max BookID before either
inserts. -/
def raceSchedule : List Bool := [true, false, true, false]

/-- The events of a request end with a rollback immediately followed by
the close of the connection. -/
def rollbackThenClose (evs : List Event) : Prop :=
  ∃ pre, evs = pre ++ [Event.rollback, Event.close]

/-- Successful validation fixes the payload completely: the fields are the
raw inputs, with the price rounded to two decimal places. -/
theorem validate_ok_inv {title : String} {author genre : Option String}
    {price : Rat} {pubDate : Option PyDate} {bc : BookCreate}
    (hv : BookCreate.validate title author genre price pubDate = .ok bc) :
    bc = ⟨title, author, genre, round2 price, pubDate⟩ := by
  unfold BookCreate.validate at hv
  split_ifs at hv
  all_goals first
  | exact Except.noConfusion hv
  | (injection hv with h; exact h.symm)

/-- MAX(BookID) is NULL exactly on the empty table. -/
theorem sqlMaxBookID_eq_none_iff (l : List Book) :
    sqlMaxBookID l = none ↔ l = [] := by
  cases l with
  | nil => simp [sqlMaxBookID]
  | cons b bs =>
    simp only [sqlMaxBookID]
    cases h : sqlMaxBookID bs <;> simp [h]

/-- MAX(BookID) is attained by a row and bounds every row. -/
theorem sqlMaxBookID_spec (l : List Book) (m : Int)
    (h : sqlMaxBookID l = some m) :
    (∃ r ∈ l, r.BookID = m) ∧ ∀ r ∈ l, r.BookID ≤ m := by
  induction l generalizing m with
  | nil => simp [sqlMaxBookID] at h
  | cons b bs ih =>
    simp only [sqlMaxBookID] at h
    cases hbs : sqlMaxBookID bs with
    | none =>
      rw [hbs] at h
      injection h with h
      subst h
      have hnil := (sqlMaxBookID_eq_none_iff bs).1 hbs
      subst hnil
      exact ⟨⟨b, by simp, rfl⟩, by simp⟩
    | some mb =>
      rw [hbs] at h
      injection h with h
      subst h
      obtain ⟨⟨r, hr, hrid⟩, hub⟩ := ih mb hbs
      constructor
      · rcases le_total b.BookID mb with hle | hle
        · exact ⟨r, by simp [hr], by rw [hrid]; exact (max_eq_right hle).symm⟩
        · exact ⟨b, by simp, (max_eq_left hle).symm⟩
      · intro s hs
        rcases List.mem_cons.1 hs with rfl | hs
        · exact le_max_left _ _
        · exact le_trans (hub s hs) (le_max_right _ _)

/-- Claim C1: the spec says an absent id is surfaced to the client as an
HTTP 404.  In the code the except-Exception clause of each of get_book,
update_book and delete_book also catches the HTTPException(404) it raised
itself and re-raises it as HTTPException(500, str(e)), so the client is
answered with status 500, never 404. -/
theorem claim_C1_missing_id_answered_with_500_not_404 :
    (get_book true true ⟨[]⟩ 1).result
      = .error (.http 500 (pyStr (.http 404 "Book not found"))) ∧
    (update_book true true true true ⟨[]⟩ 1 ⟨"T", none, none, 1, none⟩).result
      = .error (.http 500 (pyStr (.http 404 "Book not found"))) ∧
    (delete_book true true true true ⟨[]⟩ 1).result
      = .error (.http 500 (pyStr (.http 404 "Book not found"))) :=
  ⟨rfl, rfl, rfl⟩

/-- Claim C2: a payload whose Price is not positive is rejected by
pydantic validation before the handler runs; the response is a
ValidationError, the table is unchanged and no driver event happens. -/
theorem claim_C2_nonpositive_price_never_reaches_store
    (cok rok iok mok : Bool) (db : DB) (title : String)
    (author genre : Option String) (price : Rat) (pubDate : Option PyDate)
    (hp : price ≤ 0) :
    ∃ m,
      create_book_endpoint cok rok iok mok db title author genre price pubDate
        = { result := .error (.validation m), db := db, events := [] } := by
  unfold create_book_endpoint BookCreate.validate
  split_ifs
  all_goals exact ⟨_, rfl⟩

/-- Witness for claim C2 at a concrete zero-price payload. -/
theorem claim_C2_witness :
    (0 : Rat) ≤ 0 ∧
    ∃ m, create_book_endpoint true true true true ⟨[]⟩ "Dune" none none 0 none
        = { result := .error (.validation m), db := ⟨[]⟩, events := [] } :=
  ⟨le_refl 0,
    claim_C2_nonpositive_price_never_reaches_store true true true true ⟨[]⟩
      "Dune" none none 0 none (le_refl 0)⟩

/-- Claim C6: the spec says every handler releases its connection on every
exit path and fails only with the original error.  In the code every
handler except create_book runs a bare conn.close() in its finally clause,
so when get_db_connection itself fails the local conn was never bound and
the finally clause raises UnboundLocalError, which replaces the original
HTTPException(500, connection error); create_book alone guards with
conn = None / if conn and reports the wrapped original error with no
driver event. -/
theorem claim_C6_bare_close_masks_connection_failure :
    (get_books false true ⟨[]⟩ 0 100).result = .error .unboundLocal ∧
    (get_book false true ⟨[]⟩ 1).result = .error .unboundLocal ∧
    (update_book false true true true ⟨[]⟩ 1 ⟨"T", none, none, 1, none⟩).result
      = .error .unboundLocal ∧
    (delete_book false true true true ⟨[]⟩ 1).result = .error .unboundLocal ∧
    (create_book false true true true ⟨[]⟩ ⟨"T", none, none, 1, none⟩).result
      = .error (.http 500
          ("Error creating book: " ++ pyStr (.http 500 connFailDetail))) ∧
    (create_book false true true true ⟨[]⟩ ⟨"T", none, none, 1, none⟩).events
      = [] :=
  ⟨rfl, rfl, rfl, rfl, rfl, rfl⟩

/-- Claim C3: for every payload that passes validation with a positive raw
Price, create_book answers with a Book whose Price is the raw price
rounded to 2 decimal places. -/
theorem claim_C3_created_price_is_rounded
    (db : DB) (title : String) (author genre : Option String)
    (price : Rat) (pubDate : Option PyDate) (bc : BookCreate)
    (hp : 0 < price)
    (hv : BookCreate.validate title author genre price pubDate = .ok bc) :
    ∃ bk, (create_book true true true true db bc).result = .ok bk ∧
      bk.Price = round2 price := by
  refine ⟨mkRow (isnull (sqlMaxBookID db.books) 0 + 1) bc, rfl, ?_⟩
  rw [validate_ok_inv hv]
  rfl

/-- The spec scenario number: 9.999 rounds to 10 at two decimal places. -/
theorem round2_9999_eq_10 : round2 ((9999 : Rat) / 1000) = 10 := by
  norm_num [round2, pyRound]

/-- Witness for claim C3: the Dune payload of the spec scenario, whose
price 9.999 is rounded to 10. -/
theorem claim_C3_witness :
    (0 : Rat) < 9999 / 1000 ∧
    BookCreate.validate "Dune" (some "Herbert") (some "SciFi")
        (9999 / 1000) none
      = .ok ⟨"Dune", some "Herbert", some "SciFi", round2 (9999 / 1000), none⟩ ∧
    round2 ((9999 : Rat) / 1000) = 10 ∧
    ∃ bk,
      (create_book true true true true ⟨[]⟩
          ⟨"Dune", some "Herbert", some "SciFi", round2 (9999 / 1000), none⟩).result
        = .ok bk ∧
      bk.Price = round2 ((9999 : Rat) / 1000) := by
  have hv : BookCreate.validate "Dune" (some "Herbert") (some "SciFi")
      (9999 / 1000) none
      = .ok ⟨"Dune", some "Herbert", some "SciFi", round2 (9999 / 1000), none⟩ := by
    unfold BookCreate.validate
    rw [if_neg (by decide), if_neg (by decide), if_neg (by decide),
      if_neg (by norm_num)]
  refine ⟨by norm_num, hv, round2_9999_eq_10, ?_⟩
  exact claim_C3_created_price_is_rounded ⟨[]⟩ "Dune" (some "Herbert")
    (some "SciFi") (9999 / 1000) none
    ⟨"Dune", some "Herbert", some "SciFi", round2 (9999 / 1000), none⟩
    (by norm_num) hv

/-- Claim C4: the id assigned by create_book is the maximum BookID present
at the time of the read plus one, or 1 on an empty table, and the returned
Book carries it; the inserted row is in the table afterwards. -/
theorem claim_C4_assigned_id_is_max_plus_one (db : DB) (bc : BookCreate) :
    ∃ bk, (create_book true true true true db bc).result = .ok bk ∧
      ((db.books = [] ∧ bk.BookID = 1) ∨
        ∃ m, (∃ r ∈ db.books, r.BookID = m) ∧
          (∀ r ∈ db.books, r.BookID ≤ m) ∧ bk.BookID = m + 1) ∧
      bk ∈ (create_book true true true true db bc).db.books := by
  refine ⟨mkRow (isnull (sqlMaxBookID db.books) 0 + 1) bc, rfl, ?_, ?_⟩
  · cases h : sqlMaxBookID db.books with
    | none =>
      left
      exact ⟨(sqlMaxBookID_eq_none_iff db.books).1 h, by simp [mkRow, isnull, h]⟩
    | some m =>
      right
      obtain ⟨hmem, hub⟩ := sqlMaxBookID_spec db.books m h
      exact ⟨m, hmem, hub, by simp [mkRow, isnull, h]⟩
  · show mkRow (isnull (sqlMaxBookID db.books) 0 + 1) bc
      ∈ db.books ++ [mkRow (isnull (sqlMaxBookID db.books) 0 + 1) bc]
    exact List.mem_append_right _ (List.mem_singleton_self _)

/-- Claim C9: whenever create_book ends in an error after the connection
was acquired, it rolls the transaction back right before the close and the
table is unchanged. -/
theorem claim_C9_error_rolls_back_and_store_unchanged
    (rok iok mok : Bool) (db : DB) (bc : BookCreate)
    (herr : ∃ e, (create_book true rok iok mok db bc).result = .error e) :
    (create_book true rok iok mok db bc).db = db ∧
    rollbackThenClose (create_book true rok iok mok db bc).events := by
  obtain ⟨e, he⟩ := herr
  cases rok with
  | false => exact ⟨rfl, ⟨[Event.connect], rfl⟩⟩
  | true =>
    cases iok with
    | false => exact ⟨rfl, ⟨[Event.connect, Event.execRead], rfl⟩⟩
    | true =>
      cases mok with
      | false =>
        exact ⟨rfl, ⟨[Event.connect, Event.execRead, Event.execWrite], rfl⟩⟩
      | true => exact Except.noConfusion he

/-- Witness for claim C9: a failing max-BookID read on a singleton-free
table ends in an error, a rollback before the close, and no change. -/
theorem claim_C9_witness :
    (∃ e, (create_book true false true true ⟨[]⟩
        ⟨"T", none, none, 1, none⟩).result = .error e) ∧
    (create_book true false true true ⟨[]⟩ ⟨"T", none, none, 1, none⟩).db
      = ⟨[]⟩ ∧
    rollbackThenClose
      (create_book true false true true ⟨[]⟩
        ⟨"T", none, none, 1, none⟩).events := by
  have h := claim_C9_error_rolls_back_and_store_unchanged false true true
    ⟨[]⟩ ⟨"T", none, none, 1, none⟩
    ⟨.http 500 ("Error creating book: " ++ pyStr (.driver drvMsg)), rfl⟩
  exact ⟨⟨.http 500 ("Error creating book: " ++ pyStr (.driver drvMsg)), rfl⟩,
    h.1, h.2⟩

/-- Claim C10: the Book in a successful create_book or update_book
response is built from the request payload (plus the id), not re-read from
the store: the update response is literally mkRow id payload whatever the
table held, and the create response fields equal the payload fields. -/
theorem claim_C10_responses_built_from_payload :
    (∀ (db : DB) (id : Int) (bc : BookCreate) (r : Book),
        (update_book true true true true db id bc).result = .ok r →
          r = mkRow id bc) ∧
    (∀ (db : DB) (bc : BookCreate) (r : Book),
        (create_book true true true true db bc).result = .ok r →
          r.Title = bc.Title ∧ r.Author = bc.Author ∧ r.Genre = bc.Genre ∧
            r.Price = bc.Price ∧ r.PublishedDate = bc.PublishedDate) := by
  constructor
  · intro db id bc r h
    cases hany : db.books.any fun s => s.BookID == id with
    | false => simp [update_book, hany] at h
    | true =>
      simp [update_book, hany] at h
      exact h.symm
  · intro db bc r h
    have h0 : (Except.ok (mkRow (isnull (sqlMaxBookID db.books) 0 + 1) bc)
        : Except PyExc Book) = .ok r := h
    injection h0 with h0
    rw [← h0]
    exact ⟨rfl, rfl, rfl, rfl, rfl⟩

/-- Witness for claim C10 at a concrete table, id and payload. -/
theorem claim_C10_witness :
    (update_book true true true true ⟨[⟨1, "Old", none, none, 5, none⟩]⟩ 1
        ⟨"T", none, none, 2, none⟩).result
      = .ok (mkRow 1 ⟨"T", none, none, 2, none⟩) ∧
    mkRow 1 ⟨"T", none, none, 2, none⟩
      = mkRow 1 ⟨"T", none, none, 2, none⟩ ∧
    (create_book true true true true ⟨[]⟩ ⟨"T", none, none, 2, none⟩).result
      = .ok (mkRow 1 ⟨"T", none, none, 2, none⟩) ∧
    (mkRow 1 (⟨"T", none, none, 2, none⟩ : BookCreate)).Price
      = (⟨"T", none, none, 2, none⟩ : BookCreate).Price := by
  refine ⟨rfl, ?_, rfl, ?_⟩
  · exact claim_C10_responses_built_from_payload.1
      ⟨[⟨1, "Old", none, none, 5, none⟩]⟩ 1 ⟨"T", none, none, 2, none⟩
      (mkRow 1 ⟨"T", none, none, 2, none⟩) rfl
  · exact (claim_C10_responses_built_from_payload.2 ⟨[]⟩
      ⟨"T", none, none, 2, none⟩ (mkRow 1 ⟨"T", none, none, 2, none⟩)
      rfl).2.2.2.1

/-- Sorting preserves the number of rows. -/
theorem length_sortByID (l : List Book) : (sortByID l).length = l.length :=
  (List.perm_insertionSort bookLE l).length_eq

/-- Claim C5: for non-negative skip and positive limit, get_books answers
with exactly the contiguous slice of the BookID-ordered table starting at
offset skip, of at most limit rows, in ascending BookID order, and empty
as soon as skip reaches the row count. -/
theorem claim_C5_listing_is_ordered_slice (db : DB) (skip limit : Int)
    (h1 : 0 ≤ skip) (h2 : 0 < limit) :
    ∃ out, (get_books true true db skip limit).result = .ok out ∧
      out = ((sortByID db.books).drop skip.toNat).take limit.toNat ∧
      out.length ≤ limit.toNat ∧
      List.Pairwise (fun a b => a.BookID ≤ b.BookID) out ∧
      ((db.books.length : Int) ≤ skip → out = []) := by
  have hc : ¬(true = false ∨ skip < 0 ∨ limit ≤ 0) := by
    push_neg
    exact ⟨by simp, h1, h2⟩
  refine ⟨((sortByID db.books).drop skip.toNat).take limit.toNat, ?_, rfl,
    List.length_take_le _ _, ?_, ?_⟩
  · rw [get_books, if_neg (by simp : ¬(true = false)), if_neg hc]
  · exact List.Pairwise.sublist
      ((List.take_sublist _ _).trans (List.drop_sublist _ _))
      (List.sorted_insertionSort bookLE db.books)
  · intro hlen
    have hlen2 : (sortByID db.books).length ≤ skip.toNat := by
      rw [length_sortByID]
      omega
    rw [List.drop_eq_nil_of_le hlen2]
    exact List.take_nil

/-- Witness for claim C5 on a two-row table with skip 0, limit 100. -/
theorem claim_C5_witness :
    (0 : Int) ≤ 0 ∧ (0 : Int) < 100 ∧
    ∃ out,
      (get_books true true ⟨[⟨2, "B", none, none, 3, none⟩,
          ⟨1, "A", none, none, 2, none⟩]⟩ 0 100).result = .ok out ∧
      out = ((sortByID [⟨2, "B", none, none, 3, none⟩,
          ⟨1, "A", none, none, 2, none⟩]).drop (0 : Int).toNat).take
          (100 : Int).toNat ∧
      out.length ≤ (100 : Int).toNat ∧
      List.Pairwise (fun a b => a.BookID ≤ b.BookID) out ∧
      ((([⟨2, "B", none, none, 3, none⟩,
          ⟨1, "A", none, none, 2, none⟩] : List Book).length : Int) ≤ 0 →
        out = []) :=
  ⟨le_refl 0, by norm_num,
    claim_C5_listing_is_ordered_slice
      ⟨[⟨2, "B", none, none, 3, none⟩, ⟨1, "A", none, none, 2, none⟩]⟩ 0 100
      (le_refl 0) (by norm_num)⟩

/-- Any row of the updated table that carries the updated id has exactly
the payload fields: the UPDATE overwrote every such row. -/
theorem execUpdate_row_eq {l : List Book} {id : Int} {b : BookCreate}
    {s : Book}
    (hs : s ∈ l.map fun r =>
      if r.BookID == id then
        (⟨r.BookID, b.Title, b.Author, b.Genre, b.Price, b.PublishedDate⟩
          : Book)
      else r)
    (hid : (s.BookID == id) = true) : s = mkRow id b := by
  obtain ⟨r, _, rfl⟩ := List.mem_map.1 hs
  by_cases h : (r.BookID == id) = true
  · rw [if_pos h]
    have hrid : r.BookID = id := beq_iff_eq.1 h
    simp [mkRow, hrid]
  · rw [if_neg h] at hid
    exact absurd hid h

/-- If the id is present, the SELECT of get_book still finds a row after
the UPDATE (BookIDs are untouched by it). -/
theorem execUpdate_find_mem {l : List Book} {id : Int} {b : BookCreate}
    (hex : ∃ r ∈ l, r.BookID = id) :
    ∃ s, (l.map fun r =>
      if r.BookID == id then
        (⟨r.BookID, b.Title, b.Author, b.Genre, b.Price, b.PublishedDate⟩
          : Book)
      else r).find? (fun s => s.BookID == id) = some s := by
  obtain ⟨r, hr, hrid⟩ := hex
  have hmem := List.mem_map_of_mem (fun r =>
    if r.BookID == id then
      (⟨r.BookID, b.Title, b.Author, b.Genre, b.Price, b.PublishedDate⟩
        : Book)
    else r) hr
  have hpred : (((if r.BookID == id then
      (⟨r.BookID, b.Title, b.Author, b.Genre, b.Price, b.PublishedDate⟩
        : Book)
      else r)).BookID == id) = true := by
    rw [if_pos (beq_iff_eq.2 hrid)]
    simp [hrid]
  exact Option.isSome_iff_exists.1 (List.find?_isSome.2 ⟨_, hmem, hpred⟩)

/-- When the SELECT of get_book finds a row, the handler answers with it. -/
theorem get_book_found {db : DB} {id : Int} {s : Book}
    (h : db.books.find? (fun r => r.BookID == id) = some s) :
    (get_book true true db id).result = .ok s := by
  unfold get_book
  rw [if_neg (show ¬(true = false) by simp),
    if_neg (show ¬(true = false) by simp), h]

/-- Claim C7: after a successful update_book on an existing id with a
validated payload, get_book on the same id answers with exactly the new
field values, the price rounded to two decimal places. -/
theorem claim_C7_update_then_get_roundtrip (db : DB) (id : Int)
    (title : String) (author genre : Option String) (price : Rat)
    (pubDate : Option PyDate) (bc : BookCreate)
    (hv : BookCreate.validate title author genre price pubDate = .ok bc)
    (hex : ∃ r ∈ db.books, r.BookID = id) :
    ∃ r, (update_book true true true true db id bc).result
        = .ok (mkRow id bc) ∧
      (get_book true true (update_book true true true true db id bc).db
          id).result = .ok r ∧
      r.Title = title ∧ r.Author = author ∧ r.Genre = genre ∧
      r.Price = round2 price ∧ r.PublishedDate = pubDate := by
  have hany : (db.books.any fun s => s.BookID == id) = true :=
    List.any_eq_true.2
      (by obtain ⟨r, hr, hrid⟩ := hex; exact ⟨r, hr, by simp [hrid]⟩)
  have hdb : (update_book true true true true db id bc).db
      = ⟨db.books.map fun r => if r.BookID == id then
          (⟨r.BookID, bc.Title, bc.Author, bc.Genre, bc.Price,
            bc.PublishedDate⟩ : Book) else r⟩ := by
    simp [update_book, hany, Conn.acquire, Conn.execUpdate, Conn.commit,
      Conn.close]
  have hres : (update_book true true true true db id bc).result
      = .ok (mkRow id bc) := by
    simp [update_book, hany]
  obtain ⟨s, hfind⟩ := execUpdate_find_mem (b := bc) hex
  have hps : (s.BookID == id) = true :=
    @List.find?_some Book (fun s => s.BookID == id) s _ hfind
  have hs : s = mkRow id bc :=
    execUpdate_row_eq (List.mem_of_find?_eq_some hfind) hps
  have hget : (get_book true true (update_book true true true true db id
      bc).db id).result = .ok s :=
    get_book_found (by rw [hdb]; exact hfind)
  have hbc := validate_ok_inv hv
  refine ⟨s, hres, hget, ?_, ?_, ?_, ?_, ?_⟩ <;> rw [hs, hbc] <;> rfl

/-- Witness for claim C7: update the one-row table at id 1 with the Dune
payload and read it back. -/
theorem claim_C7_witness :
    BookCreate.validate "Dune" (some "Herbert") (some "SciFi")
        (9999 / 1000) none
      = .ok ⟨"Dune", some "Herbert", some "SciFi", round2 (9999 / 1000),
          none⟩ ∧
    (∃ r ∈ ([⟨1, "Old", none, none, 5, none⟩] : List Book), r.BookID = 1) ∧
    ∃ r, (update_book true true true true ⟨[⟨1, "Old", none, none, 5,
          none⟩]⟩ 1 ⟨"Dune", some "Herbert", some "SciFi",
          round2 (9999 / 1000), none⟩).result
        = .ok (mkRow 1 ⟨"Dune", some "Herbert", some "SciFi",
            round2 (9999 / 1000), none⟩) ∧
      (get_book true true (update_book true true true true
          ⟨[⟨1, "Old", none, none, 5, none⟩]⟩ 1 ⟨"Dune", some "Herbert",
          some "SciFi", round2 (9999 / 1000), none⟩).db 1).result
        = .ok r ∧
      r.Title = "Dune" ∧ r.Author = some "Herbert" ∧
      r.Genre = some "SciFi" ∧ r.Price = round2 ((9999 : Rat) / 1000) ∧
      r.PublishedDate = none := by
  have hv : BookCreate.validate "Dune" (some "Herbert") (some "SciFi")
      (9999 / 1000) none
      = .ok ⟨"Dune", some "Herbert", some "SciFi", round2 (9999 / 1000),
          none⟩ := by
    unfold BookCreate.validate
    rw [if_neg (by decide), if_neg (by decide), if_neg (by decide),
      if_neg (by norm_num)]
  have hex : ∃ r ∈ ([⟨1, "Old", none, none, 5, none⟩] : List Book),
      r.BookID = 1 := ⟨⟨1, "Old", none, none, 5, none⟩, by simp, rfl⟩
  exact ⟨hv, hex,
    claim_C7_update_then_get_roundtrip ⟨[⟨1, "Old", none, none, 5, none⟩]⟩
      1 "Dune" (some "Herbert") (some "SciFi") (9999 / 1000) none
      ⟨"Dune", some "Herbert", some "SciFi", round2 (9999 / 1000), none⟩
      hv hex⟩

/-- Claim C8: under the interleaving in which both create_book calls run
their max-BookID read before either runs its INSERT (possible because the
two statements are separate driver calls under no shared isolation), both
calls compute the same candidate id and the table ends up with two rows
sharing one BookID. -/
theorem claim_C8_concurrent_creates_duplicate_id (db : DB)
    (b1 b2 : BookCreate) :
    runSchedule raceSchedule db.books ⟨none⟩ ⟨none⟩ b1 b2
      = db.books ++ [mkRow (isnull (sqlMaxBookID db.books) 0 + 1) b1,
          mkRow (isnull (sqlMaxBookID db.books) 0 + 1) b2] ∧
    (mkRow (isnull (sqlMaxBookID db.books) 0 + 1) b1).BookID
      = (mkRow (isnull (sqlMaxBookID db.books) 0 + 1) b2).BookID ∧
    ¬ ((runSchedule raceSchedule db.books ⟨none⟩ ⟨none⟩ b1 b2).map
        Book.BookID).Nodup := by
  have hrun : runSchedule raceSchedule db.books ⟨none⟩ ⟨none⟩ b1 b2
      = db.books ++ [mkRow (isnull (sqlMaxBookID db.books) 0 + 1) b1,
          mkRow (isnull (sqlMaxBookID db.books) 0 + 1) b2] := by
    simp [raceSchedule, runSchedule, stepThread]
  refine ⟨hrun, rfl, ?_⟩
  rw [hrun]
  intro hnd
  have hsub : [(mkRow (isnull (sqlMaxBookID db.books) 0 + 1) b1).BookID,
      (mkRow (isnull (sqlMaxBookID db.books) 0 + 1) b2).BookID].Sublist
      ((db.books ++ [mkRow (isnull (sqlMaxBookID db.books) 0 + 1) b1,
        mkRow (isnull (sqlMaxBookID db.books) 0 + 1) b2]).map
        Book.BookID) := by
    rw [List.map_append]
    exact List.sublist_append_right _ _
  have hdup := hnd.sublist hsub
  simp [mkRow] at hdup

end BookApp
